import Mathlib

/-!
Shallow embedding of the Maersk tracking bridge (Netlify serverless handler)
and of the sibling revisions of the same handler kept in the repository.

Conventions of the embedding:
* JavaScript objects become structures whose possibly-absent fields are
  `Option`s; JS truthiness of an optional string is `optTruthy`.
* `a || b` on optional strings is `jsOr`; template-literal coercion of
  `undefined` is `jsStr`.
* `eventCreatedDateTime` is modelled as the epoch-millisecond value of the
  parsed date (a `Nat`): the embedding covers batches whose created dates
  parse, which is the regime all ordering claims are about.
* `Array.prototype.sort` (stable per the ECMAScript specification) is
  modelled by `List.insertionSort`, which is stable.
* `Math.round ((now - t) / 86400000)` is modelled exactly over the integers
  by `jsRoundDays` (round half toward positive infinity).
-/

namespace Bridge

/-- JS truthiness of an optional string: absent and empty are falsy. -/
def optTruthy : Option String → Bool
  | none => false
  | some s => s != ""

/-- JS `a || b` on optional strings. -/
def jsOr (a b : Option String) : Option String :=
  if optTruthy a then a else b

/-- JS template-literal coercion: `undefined` prints as the string `undefined`. -/
def jsStr (a : Option String) : String :=
  a.getD "undefined"

/-- The `address` object inside a location. -/
structure Address where
  cityName : Option String
  country : Option String
deriving DecidableEq

/-- A raw location object (`eventLocation` or `transportCall.location`).
The `UNLocationCode` field is carried by the upstream API payload; the
handler never reads it. -/
structure RawLocation where
  locationName : Option String
  address : Option Address
  UNLocationCode : Option String
deriving DecidableEq

/-- The `vessel` object inside a `transportCall`. -/
structure Vessel where
  vesselName : Option String
deriving DecidableEq

/-- The `transportCall` object of a raw event. -/
structure TransportCall where
  location : Option RawLocation
  vessel : Option Vessel
  modeOfTransport : Option String
  exportVoyageNumber : Option String
deriving DecidableEq

/-- One raw event of the upstream batch, with exactly the fields the
handler revisions read. -/
structure RawEvent where
  eventType : Option String
  eventClassifierCode : Option String
  eventCreatedDateTime : Nat
  eventDateTime : Option String
  shipmentEventTypeCode : Option String
  transportEventTypeCode : Option String
  equipmentEventTypeCode : Option String
  equipmentReference : Option String
  ISOEquipmentCode : Option String
  eventLocation : Option RawLocation
  transportCall : Option TransportCall
deriving DecidableEq

/-- Ascending comparison by created time: the comparator
`(a, b) => new Date(a.eventCreatedDateTime) - new Date(b.eventCreatedDateTime)`. -/
def byCreated (a b : RawEvent) : Prop :=
  a.eventCreatedDateTime ≤ b.eventCreatedDateTime

instance : DecidableRel byCreated :=
  fun a b => inferInstanceAs (Decidable (a.eventCreatedDateTime ≤ b.eventCreatedDateTime))

instance : IsTotal RawEvent byCreated :=
  ⟨fun a b => Nat.le_total a.eventCreatedDateTime b.eventCreatedDateTime⟩

instance : IsTrans RawEvent byCreated :=
  ⟨fun _ _ _ h h2 => Nat.le_trans h h2⟩

/-- Descending comparison by created time: the comparator
`(a, b) => new Date(b.eventCreatedDateTime) - new Date(a.eventCreatedDateTime)`. -/
def byCreatedDesc (a b : RawEvent) : Prop :=
  b.eventCreatedDateTime ≤ a.eventCreatedDateTime

instance : DecidableRel byCreatedDesc :=
  fun a b => inferInstanceAs (Decidable (b.eventCreatedDateTime ≤ a.eventCreatedDateTime))

instance : IsTotal RawEvent byCreatedDesc :=
  ⟨fun a b => Nat.le_total b.eventCreatedDateTime a.eventCreatedDateTime⟩

instance : IsTrans RawEvent byCreatedDesc :=
  ⟨fun _ _ _ h h2 => Nat.le_trans h2 h⟩

/-- `allEvents.sort(...)` ascending by created time (stable, as in ECMAScript). -/
def sortAsc (evs : List RawEvent) : List RawEvent :=
  List.insertionSort byCreated evs

/-- The descending sort used by the second revision embedded in `track.js`. -/
def sortDesc (evs : List RawEvent) : List RawEvent :=
  List.insertionSort byCreatedDesc evs

/-- Shape of the JSON body returned by the upstream tracking fetch: either a
bare JSON array of events, or an object that may carry an `events` field. -/
inductive TrackingPayload
  | list (events : List RawEvent)
  | obj (events : Option (List RawEvent))
deriving DecidableEq

/-- `(trackingData.events || [])` in `track.js`: a bare array has no `events`
property, so it yields the empty batch; only the nested form is read. -/
def allEvents : TrackingPayload → List RawEvent
  | .obj (some l) => l
  | .obj none => []
  | .list _ => []

/-- Ingestion of the earliest revision (second handler of `src/unnamed/part_000`):
`trackingData[0]` / `trackingData.map(...)` treat the payload as a bare array.
`none` models the `TypeError` thrown by `.map` on a non-array, which that
revision's catch turns into a 500 error response. -/
def part000Events : TrackingPayload → Option (List RawEvent)
  | .list l => some l
  | .obj _ => none

end Bridge

namespace Track

open Bridge

/-- The `eventDescriptions` dictionary of `track.js` (first revision). -/
def eventDescriptions : String → Option String
  | "GTIN" => some "Gate in"
  | "GTOT" => some "Gate out"
  | "LOAD" => some "Load"
  | "DISC" => some "Discharge"
  | "STUF" => some "Stuffed"
  | "STRP" => some "Stripped"
  | "PICK" => some "Pick-up for delivery"
  | "DROP" => some "Empty container return"
  | "DEPA" => some "Vessel departure"
  | "ARRI" => some "Vessel arrival"
  | "RECE" => some "Received for shipment"
  | "DRFT" => some "Draft B/L created"
  | "CONF" => some "Booking confirmed"
  | "ISSU" => some "B/L issued"
  | "PENA" => some "Pending approval"
  | _ => none

/-- The `isoCodeToSize` dictionary of `track.js`. -/
def isoCodeToSize : String → Option String
  | "45G1" => some "40\x27 Dry High"
  | "22G1" => some "20\x27 Dry"
  | "42G1" => some "40\x27 Dry"
  | "45R1" => some "40\x27 Reefer High"
  | _ => none

/-- `getIcon` of `track.js`. -/
def getIcon (ev : RawEvent) : String :=
  if ev.eventType == some "TRANSPORT"
      || (ev.transportCall.bind TransportCall.modeOfTransport) == some "VESSEL" then
    "vessel"
  else if (ev.transportCall.bind TransportCall.modeOfTransport) == some "TRUCK"
      || ev.equipmentEventTypeCode == some "GTOT"
      || ev.equipmentEventTypeCode == some "GTIN" then
    "truck"
  else
    "container"

/-- `event.eventLocation || event.transportCall?.location`. -/
def locObj (ev : RawEvent) : Option RawLocation :=
  match ev.eventLocation with
  | some l => some l
  | none => ev.transportCall.bind TransportCall.location

/-- One entry of the `transportPlan` array built by `track.js`. -/
structure TransportStep where
  locationName : Option String
  locationDetail : Option String
  icon : String
  description : Option String
  vesselInfo : Option String
  date : Option String
deriving DecidableEq

/-- The vessel string of a transport-plan step:
`vesselName / exportVoyageNumber` when the event is a TRANSPORT event with a
truthy vessel name. -/
def vesselInfoOf (ev : RawEvent) : Option String :=
  match ev.transportCall with
  | some tc =>
    if ev.eventType == some "TRANSPORT" && optTruthy (tc.vessel.bind Vessel.vesselName) then
      some ((tc.vessel.bind Vessel.vesselName).getD "" ++ " / " ++ jsStr tc.exportVoyageNumber)
    else
      none
  | none => none

/-- `locationDetail`: the `city, country` string when the city name is truthy,
else `null`. -/
def locationDetailOf (ev : RawEvent) : Option String :=
  match (locObj ev).bind RawLocation.address with
  | some a =>
    match a.cityName with
    | some c => if c != "" then some (c ++ ", " ++ jsStr a.country) else none
    | none => none
  | none => none

/-- The transport-plan step `track.js` builds from one event. -/
def stepOf (ev : RawEvent) : TransportStep :=
  let eventCode := jsOr ev.equipmentEventTypeCode
    (jsOr ev.transportEventTypeCode ev.shipmentEventTypeCode)
  { locationName := (locObj ev).bind RawLocation.locationName
  , locationDetail := locationDetailOf ev
  , icon := getIcon ev
  , description := jsOr (eventCode.bind eventDescriptions) (jsOr eventCode ev.eventType)
  , vesselInfo := vesselInfoOf ev
  , date := ev.eventDateTime }

/-- The transport plan as mapped from the ascending-sorted events, before the
final reversal done when assembling `finalResponse`. -/
def transportPlanAsc (evs : List RawEvent) : List TransportStep :=
  (sortAsc evs).map stepOf

/-- One entry of the `containers` array of `track.js`. -/
structure ContainerOut where
  id : String
  size : String
  finalStatus : Option String
  finalLocation : String
  finalDate : Option String
deriving DecidableEq

/-- The container entry `track.js` derives for reference `r` from its chosen
final event. -/
def mkContainer (r : String) (ev : RawEvent) : ContainerOut :=
  { id := r
  , size := (ev.ISOEquipmentCode.bind isoCodeToSize).getD "Standard"
  , finalStatus := jsOr (ev.equipmentEventTypeCode.bind eventDescriptions) ev.equipmentEventTypeCode
  , finalLocation :=
      match (locObj ev).bind RawLocation.address with
      | some a => jsStr a.cityName ++ ", " ++ jsStr a.country
      | none => "N/A"
  , finalDate := ev.eventDateTime }

/-- The equipment reference as the plain string the code works with. -/
def refStr (ev : RawEvent) : String :=
  ev.equipmentReference.getD ""

/-- `[...new Set(l)]`: deduplication keeping the first occurrence of each
element, in first-insertion order. -/
def jsSetDedup : List String → List String
  | [] => []
  | x :: xs => x :: jsSetDedup (xs.filter (fun y => y != x))
termination_by l => l.length
decreasing_by
  simp only [List.length_cons]
  exact Nat.lt_succ_of_le (List.length_filter_le _ xs)

/-- `sortedEvents.filter(e => e.equipmentReference)`. -/
def containerEvents (evs : List RawEvent) : List RawEvent :=
  (sortAsc evs).filter (fun e => optTruthy e.equipmentReference)

/-- `[...new Set(containerEvents.map(e => e.equipmentReference))]`. -/
def uniqueContainerIds (evs : List RawEvent) : List String :=
  jsSetDedup ((containerEvents evs).map refStr)

/-- The `containers` array of `track.js`.  The code looks the final event up
with `find` on the reversed list; that lookup always succeeds because every
id comes from the list itself, so the `filterMap` drops nothing. -/
def containersOf (evs : List RawEvent) : List ContainerOut :=
  (uniqueContainerIds evs).filterMap fun r =>
    ((containerEvents evs).reverse.find? (fun e => e.equipmentReference == some r)).map
      (mkContainer r)

/-- City read for the summary from an event's own location. -/
def evCityDirect (ev : RawEvent) : Option String :=
  (ev.eventLocation.bind RawLocation.address).bind Address.cityName

/-- City read for the summary through the transport call. -/
def evCityViaCall (ev : RawEvent) : Option String :=
  (((ev.transportCall.bind TransportCall.location).bind RawLocation.address)).bind Address.cityName

/-- `e.eventLocation?.address?.cityName || e.transportCall?.location?.address?.cityName`. -/
def summaryCity (ev : RawEvent) : Option String :=
  jsOr (evCityDirect ev) (evCityViaCall ev)

/-- The `from` field of the summary: city of the first sorted event with a
truthy city, else `N/A`. -/
def fromLocation (evs : List RawEvent) : String :=
  (((sortAsc evs).find? (fun e => optTruthy (summaryCity e))).bind summaryCity).getD "N/A"

/-- The `to` field of the summary: city of the last sorted event with a truthy
city, else `N/A`. -/
def toLocation (evs : List RawEvent) : String :=
  (((sortAsc evs).reverse.find? (fun e => optTruthy (summaryCity e))).bind summaryCity).getD "N/A"

/-- Milliseconds per day. -/
def msPerDay : Int := 86400000

/-- `Math.round(diff / 86400000)` over exact integer arithmetic: round half
toward positive infinity, i.e. the floor of `diff / 86400000 + 1 / 2`. -/
def jsRoundDays (diff : Int) : Int :=
  Int.fdiv (2 * diff + msPerDay) (2 * msPerDay)

/-- The recency label of `track.js`: only an exactly-zero rounded difference
prints `Today`; the plural `s` is used when the difference exceeds 1. -/
def lastUpdatedText (now last : Nat) : String :=
  let d := jsRoundDays ((now : Int) - (last : Int))
  if d = 0 then "Today"
  else toString d ++ " day" ++ (if d > 1 then "s" else "") ++ " ago"

/-- Created time of `sortedEvents[sortedEvents.length - 1]` (0 stands for the
out-of-range read of an empty list, which the code never performs). -/
def lastCreated (evs : List RawEvent) : Nat :=
  ((sortAsc evs).getLast?).elim 0 RawEvent.eventCreatedDateTime

/-- The `summary` object of the response body.  The empty-batch early return
emits only `blNumber`; absent fields are `none`. -/
structure SummaryOut where
  blNumber : String
  fromCity : Option String
  toCity : Option String
deriving DecidableEq

/-- The JSON body of a 200 response of `track.js`.  Fields the empty-batch
early return does not emit are `none`. -/
structure BodyOut where
  summary : SummaryOut
  lastUpdated : Option String
  containers : Option (List ContainerOut)
  transportPlan : List TransportStep
deriving DecidableEq

/-- The 200 body `track.js` assembles: the empty-batch early return
`{ summary: { blNumber }, transportPlan: [] }`, or `finalResponse` with the
transport plan reversed to show the most recent step first. -/
def trackBody (tn : String) (now : Nat) (evs : List RawEvent) : BodyOut :=
  if evs.isEmpty then
    { summary := ⟨tn, none, none⟩
    , lastUpdated := none
    , containers := none
    , transportPlan := [] }
  else
    { summary := ⟨tn, some (fromLocation evs), some (toLocation evs)⟩
    , lastUpdated := some (lastUpdatedText now (lastCreated evs))
    , containers := some (containersOf evs)
    , transportPlan := (transportPlanAsc evs).reverse }

/-- The `corsHeaders` constant of `track.js`. -/
def corsHeaders : List (String × String) :=
  [ ("Access-Control-Allow-Origin", "*")
  , ("Access-Control-Allow-Headers", "Content-Type")
  , ("Access-Control-Allow-Methods", "POST, OPTIONS") ]

/-- Outcome of the upstream tracking fetch, when the fetch itself resolves. -/
structure FetchResult where
  ok : Bool
  status : Nat
  payload : Bridge.TrackingPayload
deriving DecidableEq

/-- Everything the environment feeds one handler invocation: the HTTP method,
the result of `JSON.parse(event.body)` (`none` means the parse throws and the
invocation never returns a response), the OAuth outcome
(`Except` error = the token fetch threw; inner `Option` = the
`access_token || token` field), and the tracking fetch outcome. -/
structure HandlerInput where
  httpMethod : String
  parsedBody : Option String
  tokenData : Except String (Option String)
  tracking : Except String FetchResult

/-- The body of one HTTP response of `track.js`. -/
inductive RespBody
  | plain (s : String)
  | errObj (msg : String)
  | result (b : BodyOut)
deriving DecidableEq

/-- One HTTP response of the handler. -/
structure HttpResponse where
  statusCode : Nat
  headers : List (String × String)
  body : RespBody
deriving DecidableEq

/-- The handler of `track.js`, path by path.  `none` is the one way the
function exits without returning a response: `JSON.parse(event.body)` throwing
outside every try block. -/
def handler (inp : HandlerInput) (now : Nat) : Option HttpResponse :=
  if inp.httpMethod = "OPTIONS" then
    some ⟨200, corsHeaders, .plain "Success"⟩
  else if inp.httpMethod ≠ "POST" then
    some ⟨405, corsHeaders, .plain "Method Not Allowed"⟩
  else
    match inp.parsedBody with
    | none => none
    | some tn =>
      match inp.tokenData with
      | .error msg => some ⟨500, corsHeaders, .errObj ("Authentication failed: " ++ msg)⟩
      | .ok none =>
        some ⟨500, corsHeaders, .errObj "Authentication failed: No access_token in OAuth response"⟩
      | .ok (some _) =>
        match inp.tracking with
        | .error msg => some ⟨500, corsHeaders, .errObj ("An internal error occurred: " ++ msg)⟩
        | .ok fr =>
          if !fr.ok then
            some ⟨500, corsHeaders,
              .errObj ("An internal error occurred: Maersk API Error (" ++ toString fr.status ++ ")")⟩
          else
            some ⟨200, corsHeaders, .result (trackBody tn now (Bridge.allEvents fr.payload))⟩

end Track

namespace TrackV2

open Bridge

/-- The `shipmentEventCodes` dictionary of the second revision embedded in
`track.js` (identical in `src/unnamed/part_003`). -/
def shipmentEventCodes : String → Option String
  | "RECE" => some "Received"
  | "DRFT" => some "Drafted"
  | "PENA" => some "Pending Approval"
  | "PENU" => some "Pending Update"
  | "REJE" => some "Rejected"
  | "APPR" => some "Approved"
  | "ISSU" => some "Issued"
  | "SURR" => some "Surrendered"
  | "SUBM" => some "Submitted"
  | "VOID" => some "Void"
  | "CONF" => some "Confirmed"
  | "REQS" => some "Requested"
  | "CMPL" => some "Completed"
  | "HOLD" => some "On Hold"
  | "RELS" => some "Released"
  | _ => none

/-- The `transportEventCodes` dictionary of the second revision. -/
def transportEventCodes : String → Option String
  | "ARRI" => some "Arrived"
  | "DEPA" => some "Departed"
  | _ => none

/-- The `equipmentEventCodes` dictionary of the second revision. -/
def equipmentEventCodes : String → Option String
  | "LOAD" => some "Loaded"
  | "DISC" => some "Discharged"
  | "GTIN" => some "Gated In"
  | "GTOT" => some "Gated Out"
  | "STUF" => some "Stuffed"
  | "STRP" => some "Stripped"
  | "PICK" => some "Pick-up"
  | "DROP" => some "Drop-off"
  | "RSEA" => some "Resealed"
  | "RMVD" => some "Removed"
  | "INSP" => some "Inspected"
  | _ => none

/-- `sortedEvents.find(e => e.eventClassifierCode === 'ACT') || sortedEvents[0] || {}`
over the descending-sorted batch; `none` models the `{}` default object. -/
def latestActualEvent (evs : List RawEvent) : Option RawEvent :=
  match (sortDesc evs).find? (fun e => e.eventClassifierCode == some "ACT") with
  | some e => some e
  | none => (sortDesc evs).head?

/-- The `current_status` computation of the second revision from the selected
event: starts at `Status Unavailable` and is reassigned per event type; a
missing type code makes the assigned value `undefined` (`none`). -/
def describeEvent : Option RawEvent → Option String
  | none => some "Status Unavailable"
  | some ev =>
    match ev.eventType with
    | none => some "Status Unavailable"
    | some t =>
      if t = "" then some "Status Unavailable"
      else if t = "SHIPMENT" then
        jsOr (ev.shipmentEventTypeCode.bind shipmentEventCodes) ev.shipmentEventTypeCode
      else if t = "TRANSPORT" then
        jsOr (ev.transportEventTypeCode.bind transportEventCodes) ev.transportEventTypeCode
      else if t = "EQUIPMENT" then
        jsOr (ev.equipmentEventTypeCode.bind equipmentEventCodes) ev.equipmentEventTypeCode
      else some "Status Unavailable"

/-- The `status` field of the second revision's response. -/
def currentStatus (evs : List RawEvent) : Option String :=
  describeEvent (latestActualEvent evs)

end TrackV2

namespace Part002

open Bridge

/-- `getLocationFromEvent` of `src/unnamed/part_002`: city name, else the
bare location name, else the `N/A` sentinel; total on possibly-absent events. -/
def getLocationFromEvent : Option RawEvent → String
  | none => "N/A"
  | some ev =>
    let loc := Track.locObj ev
    match jsOr ((loc.bind RawLocation.address).bind Address.cityName)
        (loc.bind RawLocation.locationName) with
    | some s => if s != "" then s else "N/A"
    | none => "N/A"

/-- The recency label of `src/unnamed/part_002`: zero or negative rounded
difference prints `Today`; the singular form is used exactly at 1. -/
def lastUpdatedText (now last : Nat) : String :=
  let d := Track.jsRoundDays ((now : Int) - (last : Int))
  if d ≤ 0 then "Today"
  else toString d ++ " day" ++ (if d = 1 then "" else "s") ++ " ago"

/-- The empty-batch early return of `src/unnamed/part_002`:
`{ summary: { blNumber, from: 'N/A', to: 'N/A' }, transportPlan: [] }` —
still no `status`, `containers` or `lastUpdated` field. -/
def emptyBody (tn : String) : Track.BodyOut :=
  { summary := ⟨tn, some "N/A", some "N/A"⟩
  , lastUpdated := none
  , containers := none
  , transportPlan := [] }

end Part002

namespace Bridge

/-- An event carries equipment reference `r` when its (truthy) reference
equals `r`; the empty string is JS-falsy and counts as absent. -/
def carriesRef (e : RawEvent) (r : String) : Prop :=
  e.equipmentReference = some r ∧ r ≠ ""

instance (e : RawEvent) (r : String) : Decidable (carriesRef e r) :=
  decidable_of_iff (e.equipmentReference = some r ∧ r ≠ "") Iff.rfl

/-- A concrete equipment event used as a sample batch member. -/
def bareEvent : RawEvent :=
  { eventType := some "EQUIPMENT"
  , eventClassifierCode := some "ACT"
  , eventCreatedDateTime := 1
  , eventDateTime := some "2024-06-01T08:00:00"
  , shipmentEventTypeCode := none
  , transportEventTypeCode := none
  , equipmentEventTypeCode := some "GTIN"
  , equipmentReference := some "MSKU1000000"
  , ISOEquipmentCode := some "22G1"
  , eventLocation := none
  , transportCall := none }

/-- A planned (non-ACTUAL) vessel-arrival event. -/
def plannedArrival : RawEvent :=
  { eventType := some "TRANSPORT"
  , eventClassifierCode := some "PLN"
  , eventCreatedDateTime := 5
  , eventDateTime := some "2024-06-09T00:00:00"
  , shipmentEventTypeCode := none
  , transportEventTypeCode := some "ARRI"
  , equipmentEventTypeCode := none
  , equipmentReference := none
  , ISOEquipmentCode := none
  , eventLocation := none
  , transportCall := none }

/-- An early event, created first. -/
def evEarly : RawEvent :=
  { eventType := some "EQUIPMENT"
  , eventClassifierCode := some "ACT"
  , eventCreatedDateTime := 10
  , eventDateTime := some "2024-06-01T00:00:00"
  , shipmentEventTypeCode := none
  , transportEventTypeCode := none
  , equipmentEventTypeCode := some "LOAD"
  , equipmentReference := some "MSKU1000000"
  , ISOEquipmentCode := some "22G1"
  , eventLocation := none
  , transportCall := none }

/-- A later event, created second. -/
def evLate : RawEvent :=
  { eventType := some "EQUIPMENT"
  , eventClassifierCode := some "ACT"
  , eventCreatedDateTime := 20
  , eventDateTime := some "2024-06-02T00:00:00"
  , shipmentEventTypeCode := none
  , transportEventTypeCode := none
  , equipmentEventTypeCode := some "DISC"
  , equipmentReference := some "MSKU1000000"
  , ISOEquipmentCode := some "22G1"
  , eventLocation := none
  , transportCall := none }

/-- An event whose location carries a UN/LOCODE-style code for Jeddah together
with a differing facility name, and no structured city. -/
def portEvent : RawEvent :=
  { eventType := some "EQUIPMENT"
  , eventClassifierCode := some "ACT"
  , eventCreatedDateTime := 7
  , eventDateTime := some "2024-06-03T00:00:00"
  , shipmentEventTypeCode := none
  , transportEventTypeCode := none
  , equipmentEventTypeCode := some "DISC"
  , equipmentReference := some "MSKU1000000"
  , ISOEquipmentCode := some "22G1"
  , eventLocation := some
      { locationName := some "King Abdulaziz Port"
      , address := none
      , UNLocationCode := some "SAJED" }
  , transportCall := none }

/-- An event with a structured city. -/
def cityEvent : RawEvent :=
  { eventType := some "EQUIPMENT"
  , eventClassifierCode := some "ACT"
  , eventCreatedDateTime := 8
  , eventDateTime := some "2024-06-04T00:00:00"
  , shipmentEventTypeCode := none
  , transportEventTypeCode := none
  , equipmentEventTypeCode := some "GTOT"
  , equipmentReference := some "MSKU2000000"
  , ISOEquipmentCode := some "45G1"
  , eventLocation := some
      { locationName := some "APM Terminals Rotterdam"
      , address := some { cityName := some "Rotterdam", country := some "Netherlands" }
      , UNLocationCode := some "NLRTM" }
  , transportCall := none }

/-- `ev` with every location object's `UNLocationCode` replaced by `code` and
nothing else changed. -/
def setUNCode (ev : RawEvent) (code : Option String) : RawEvent :=
  { ev with
    eventLocation := ev.eventLocation.map (fun l => { l with UNLocationCode := code })
  , transportCall := ev.transportCall.map (fun tc =>
      { tc with location := tc.location.map (fun l => { l with UNLocationCode := code }) }) }

/-- A movement event whose record-creation time lies one day after the clock
instant 0. -/
def futureEvent : RawEvent :=
  { eventType := some "EQUIPMENT"
  , eventClassifierCode := some "ACT"
  , eventCreatedDateTime := 86400000
  , eventDateTime := some "2024-06-10T00:00:00"
  , shipmentEventTypeCode := none
  , transportEventTypeCode := none
  , equipmentEventTypeCode := some "LOAD"
  , equipmentReference := some "MSKU1000000"
  , ISOEquipmentCode := some "22G1"
  , eventLocation := none
  , transportCall := none }

end Bridge

namespace Part002

/-- The structured city the resolver of `part_002` reads from an event. -/
def resolvedCity (ev : Bridge.RawEvent) : Option String :=
  ((Track.locObj ev).bind Bridge.RawLocation.address).bind Bridge.Address.cityName

/-- The bare facility/terminal name the resolver of `part_002` reads from an
event. -/
def resolvedName (ev : Bridge.RawEvent) : Option String :=
  (Track.locObj ev).bind Bridge.RawLocation.locationName

end Part002

open Bridge Track

/-- Filtering on a fixed created time commutes with ordered insertion: the
inserted event lands in front of the equal-time events already present. -/
theorem filter_created_orderedInsert (n : Nat) (x : RawEvent) (l : List RawEvent) :
    (List.orderedInsert byCreated x l).filter (fun e => e.eventCreatedDateTime == n)
      = if x.eventCreatedDateTime == n
        then x :: l.filter (fun e => e.eventCreatedDateTime == n)
        else l.filter (fun e => e.eventCreatedDateTime == n) := by
  induction l with
  | nil =>
    by_cases hx : x.eventCreatedDateTime == n <;> simp [List.orderedInsert, hx]
  | cons b l ih =>
    by_cases h : byCreated x b
    · rw [List.orderedInsert, if_pos h]
      by_cases hx : x.eventCreatedDateTime == n <;> simp [List.filter_cons, hx]
    · rw [List.orderedInsert, if_neg h]
      by_cases hx : x.eventCreatedDateTime == n
      · have hlt : b.eventCreatedDateTime < x.eventCreatedDateTime := by
          have := h
          unfold byCreated at this
          omega
        have hbn : (b.eventCreatedDateTime == n) = false := by
          have hxn : x.eventCreatedDateTime = n := beq_iff_eq.mp hx
          exact beq_eq_false_iff_ne.mpr (by omega)
        simp [List.filter_cons, hbn, ih, hx]
      · by_cases hb : b.eventCreatedDateTime == n <;>
          simp [List.filter_cons, hb, ih, hx]

/-- Stability of the sequencer: the subsequence of events at any fixed created
time is exactly the input's subsequence at that time, in input order. -/
theorem filter_created_sortAsc (n : Nat) (evs : List RawEvent) :
    (sortAsc evs).filter (fun e => e.eventCreatedDateTime == n)
      = evs.filter (fun e => e.eventCreatedDateTime == n) := by
  induction evs with
  | nil => rfl
  | cons x l ih =>
    show (List.orderedInsert byCreated x (List.insertionSort byCreated l)).filter _ = _
    rw [filter_created_orderedInsert]
    simp only [sortAsc] at ih
    by_cases hx : x.eventCreatedDateTime == n <;>
      simp [List.filter_cons, hx, ih]

/-- Claim C4: the sequencer output has the length of the ingested batch, is
non-decreasing by created time, and is stable — for every fixed timestamp the
events at that timestamp appear in their original relative input order. -/
theorem claim_C4_sequencer (evs : List RawEvent) :
    (sortAsc evs).length = evs.length
    ∧ List.Sorted byCreated (sortAsc evs)
    ∧ ∀ n, (sortAsc evs).filter (fun e => e.eventCreatedDateTime == n)
          = evs.filter (fun e => e.eventCreatedDateTime == n) :=
  ⟨List.length_insertionSort byCreated evs,
   List.sorted_insertionSort byCreated evs,
   fun n => filter_created_sortAsc n evs⟩

/-- Claim C9: reversing the assembled transport plan twice yields the
assembled transport plan. -/
theorem claim_C9_double_reverse (tn : String) (now : Nat) (evs : List RawEvent) :
    ((Track.trackBody tn now evs).transportPlan.reverse).reverse
      = (Track.trackBody tn now evs).transportPlan :=
  List.reverse_reverse _

/-- Claim C3 fails as stated: the empty-batch body of `track.js` is
`{ summary: { blNumber }, transportPlan: [] }` — it has no containers list,
no `N/A` origin or destination, and no status field at all. -/
theorem claim_C3_counterexample :
    Track.trackBody "BL1" 0 []
        = { summary := ⟨"BL1", none, none⟩
          , lastUpdated := none
          , containers := none
          , transportPlan := [] }
      ∧ (Track.trackBody "BL1" 0 []).containers ≠ some []
      ∧ (Track.trackBody "BL1" 0 []).summary.fromCity ≠ some "N/A" := by
  refine ⟨rfl, ?_, ?_⟩ <;> decide

/-- Claim C3 amended: an empty event list produces, without any exception,
exactly the early-return body `{ summary: { blNumber }, transportPlan: [] }`. -/
theorem claim_C3_amended (tn : String) (now : Nat) :
    Track.trackBody tn now []
      = { summary := ⟨tn, none, none⟩
        , lastUpdated := none
        , containers := none
        , transportPlan := [] } :=
  rfl

/-- Claim C8 fails as stated: the same single-event collection ingests to the
empty batch when supplied as a bare list but to that event when nested under
the `events` field. -/
theorem claim_C8_counterexample :
    Bridge.allEvents (Bridge.TrackingPayload.list [bareEvent]) = []
    ∧ Bridge.allEvents (Bridge.TrackingPayload.obj (some [bareEvent])) = [bareEvent]
    ∧ ([] : List Bridge.RawEvent) ≠ [bareEvent] := by
  refine ⟨rfl, rfl, ?_⟩
  decide

/-- Claim C8 amended: `track.js` reads only the collection nested under
`events` and treats a bare list as an absent collection, while the early
`part_000` revision reads only a bare list and throws (returning a 500, here
`none`) on the nested shape; no revision accepts both representations. -/
theorem claim_C8_amended (l : List Bridge.RawEvent) :
    Bridge.allEvents (Bridge.TrackingPayload.obj (some l)) = l
    ∧ Bridge.allEvents (Bridge.TrackingPayload.list l) = []
    ∧ Bridge.part000Events (Bridge.TrackingPayload.list l) = some l
    ∧ Bridge.part000Events (Bridge.TrackingPayload.obj (some l)) = none :=
  ⟨rfl, rfl, rfl, rfl⟩

/-- Claim C2 fails as stated: for a two-event batch created in order
early-then-late, the assembled transport plan lists the later-created event
first — the most-recent-first reversal, not ascending order. -/
theorem claim_C2_counterexample :
    (Track.trackBody "BL1" 100 [evEarly, evLate]).transportPlan
        = [Track.stepOf evLate, Track.stepOf evEarly]
    ∧ Track.transportPlanAsc [evEarly, evLate]
        = [Track.stepOf evEarly, Track.stepOf evLate]
    ∧ evEarly.eventCreatedDateTime < evLate.eventCreatedDateTime
    ∧ (Track.trackBody "BL1" 100 [evEarly, evLate]).transportPlan
        ≠ Track.transportPlanAsc [evEarly, evLate] := by
  refine ⟨?_, ?_, ?_, ?_⟩ <;> decide

/-- Claim C2 amended: the builder maps the ascending-sorted events, and the
assembled result is that sequence reversed — i.e. some descending-by-created
permutation of the batch mapped to steps. -/
theorem claim_C2_amended (tn : String) (now : Nat) (evs : List RawEvent) (h : evs ≠ []) :
    ∃ l : List RawEvent, l.Perm evs ∧ List.Sorted byCreatedDesc l
      ∧ (Track.trackBody tn now evs).transportPlan = l.map Track.stepOf := by
  refine ⟨(sortAsc evs).reverse, ?_, ?_, ?_⟩
  · exact (List.reverse_perm _).trans (List.perm_insertionSort byCreated evs)
  · exact List.pairwise_reverse.mpr (List.sorted_insertionSort byCreated evs)
  · cases evs with
    | nil => exact absurd rfl h
    | cons a l =>
      show (Track.transportPlanAsc (a :: l)).reverse
          = ((sortAsc (a :: l)).reverse).map Track.stepOf
      rw [List.map_reverse]
      rfl

/-- Witness for the amended C2 statement at a concrete two-event batch. -/
theorem claim_C2_amended_witness :
    ∃ l : List RawEvent, l.Perm [evEarly, evLate] ∧ List.Sorted byCreatedDesc l
      ∧ (Track.trackBody "BL1" 100 [evEarly, evLate]).transportPlan
          = l.map Track.stepOf :=
  claim_C2_amended "BL1" 100 [evEarly, evLate] (by decide)

/-- Helper: the recency label of `part_002` written over an abstract rounded
day difference. -/
theorem part002_text_of_d (now last : Nat) (d : Int)
    (h : Track.jsRoundDays ((now : Int) - (last : Int)) = d) :
    Part002.lastUpdatedText now last
      = if d ≤ 0 then "Today"
        else toString d ++ " day" ++ (if d = 1 then "" else "s") ++ " ago" := by
  subst h; rfl

/-- Helper: the recency label of `track.js` written over an abstract rounded
day difference. -/
theorem track_text_of_d (now last : Nat) (d : Int)
    (h : Track.jsRoundDays ((now : Int) - (last : Int)) = d) :
    Track.lastUpdatedText now last
      = if d = 0 then "Today"
        else toString d ++ " day" ++ (if d > 1 then "s" else "") ++ " ago" := by
  subst h; rfl

/-- Claim C6 fails as stated: at a whole-day difference of minus one (latest
event created a day after the current time), `track.js` labels the shipment
`-1 day ago`, not `Today`. -/
theorem claim_C6_counterexample :
    Track.lastUpdatedText 0 86400000 = "-1 day ago"
    ∧ (Track.trackBody "BL1" 0 [futureEvent]).lastUpdated = some "-1 day ago"
    ∧ ("-1 day ago" : String) ≠ "Today" := by
  refine ⟨?_, ?_, ?_⟩ <;> decide

/-- Claim C6 amended: with N the rounded whole-day difference, the `part_002`
revision matches the claim — `Today` for N at most 0, `1 day ago` exactly at
N = 1, `N days ago` for larger N — and `track.js` agrees with it whenever N is
non-negative (for negative N `track.js` prints the negative number instead of
`Today`). -/
theorem claim_C6_amended (now last : Nat) :
    (Track.jsRoundDays ((now : Int) - (last : Int)) ≤ 0 →
      Part002.lastUpdatedText now last = "Today")
    ∧ (Track.jsRoundDays ((now : Int) - (last : Int)) = 1 →
      Part002.lastUpdatedText now last = "1 day ago")
    ∧ (2 ≤ Track.jsRoundDays ((now : Int) - (last : Int)) →
      Part002.lastUpdatedText now last
        = toString (Track.jsRoundDays ((now : Int) - (last : Int))) ++ " days ago")
    ∧ (0 ≤ Track.jsRoundDays ((now : Int) - (last : Int)) →
      Track.lastUpdatedText now last = Part002.lastUpdatedText now last) := by
  refine ⟨fun h => ?_, fun h => ?_, fun h => ?_, fun h => ?_⟩
  · rw [part002_text_of_d now last _ rfl, if_pos h]
  · rw [part002_text_of_d now last _ h]
    decide
  · rw [part002_text_of_d now last _ rfl,
      if_neg (show ¬ Track.jsRoundDays ((now : Int) - (last : Int)) ≤ 0 from by omega)]
    rw [if_neg (show ¬ Track.jsRoundDays ((now : Int) - (last : Int)) = 1 from by omega)]
    rw [String.append_assoc, String.append_assoc]
    rw [show (" day" ++ ("s" ++ " ago") : String) = " days ago" from by decide]
  · rw [part002_text_of_d now last _ rfl, track_text_of_d now last _ rfl]
    by_cases h0 : Track.jsRoundDays ((now : Int) - (last : Int)) = 0
    · rw [if_pos h0,
        if_pos (show Track.jsRoundDays ((now : Int) - (last : Int)) ≤ 0 from by omega)]
    · rw [if_neg h0,
        if_neg (show ¬ Track.jsRoundDays ((now : Int) - (last : Int)) ≤ 0 from by omega)]
      have hs : (if Track.jsRoundDays ((now : Int) - (last : Int)) > 1 then "s" else "")
          = (if Track.jsRoundDays ((now : Int) - (last : Int)) = 1 then "" else "s") := by
        by_cases h1 : Track.jsRoundDays ((now : Int) - (last : Int)) = 1
        · rw [if_pos h1, if_neg (by omega)]
        · rw [if_pos (by omega), if_neg h1]
      rw [hs]

/-- Witness for the amended C6 statement: a difference of exactly one day. -/
theorem claim_C6_amended_witness :
    Part002.lastUpdatedText 86400000 0 = "1 day ago" :=
  (claim_C6_amended 86400000 0).2.1 (by decide)

/-- Claim C7 fails as stated: a location that carries a UN/LOCODE-style code
resolves to its bare facility name (no code-to-city table exists to win over
it), and the total-fallback sentinel is `N/A`, not `Unknown`. -/
theorem claim_C7_counterexample :
    Part002.getLocationFromEvent (some portEvent) = "King Abdulaziz Port"
    ∧ Part002.getLocationFromEvent (some portEvent) ≠ "Jeddah"
    ∧ Part002.getLocationFromEvent none = "N/A"
    ∧ ("N/A" : String) ≠ "Unknown" := by
  refine ⟨?_, ?_, ?_, ?_⟩ <;> decide

/-- Claim C7 amended: resolution is (1) the structured city when truthy,
(2) else the bare facility/terminal name when truthy, (3) else the `N/A`
sentinel; it is total, and no location code influences the result. -/
theorem claim_C7_amended (ev : RawEvent) :
    (∀ c, Part002.resolvedCity ev = some c → c ≠ "" →
      Part002.getLocationFromEvent (some ev) = c)
    ∧ (optTruthy (Part002.resolvedCity ev) = false →
      ∀ nm, Part002.resolvedName ev = some nm → nm ≠ "" →
        Part002.getLocationFromEvent (some ev) = nm)
    ∧ (optTruthy (Part002.resolvedCity ev) = false →
      optTruthy (Part002.resolvedName ev) = false →
        Part002.getLocationFromEvent (some ev) = "N/A")
    ∧ (∀ code, Part002.getLocationFromEvent (some (setUNCode ev code))
        = Part002.getLocationFromEvent (some ev)) := by
  have hloc : ∀ code, Track.locObj (setUNCode ev code)
      = (Track.locObj ev).map (fun l => { l with UNLocationCode := code }) := by
    intro code
    cases hEL : ev.eventLocation with
    | some l => simp [Track.locObj, setUNCode, hEL]
    | none =>
      cases hTC : ev.transportCall with
      | none => simp [Track.locObj, setUNCode, hEL, hTC]
      | some tc =>
        cases htcl : tc.location <;> simp [Track.locObj, setUNCode, hEL, hTC, htcl]
  refine ⟨fun c hc hne => ?_, fun hcf nm hnm hne => ?_, fun hcf hnf => ?_, fun code => ?_⟩
  · have hb : (c != "") = true := bne_iff_ne.mpr hne
    simp only [Part002.getLocationFromEvent, jsOr]
    rw [show ((Track.locObj ev).bind Bridge.RawLocation.address).bind Bridge.Address.cityName
        = Part002.resolvedCity ev from rfl, hc]
    simp [optTruthy, hb]
  · have hb : (nm != "") = true := bne_iff_ne.mpr hne
    simp only [Part002.getLocationFromEvent, jsOr]
    rw [show ((Track.locObj ev).bind Bridge.RawLocation.address).bind Bridge.Address.cityName
        = Part002.resolvedCity ev from rfl, hcf]
    rw [show (Track.locObj ev).bind Bridge.RawLocation.locationName
        = Part002.resolvedName ev from rfl, hnm]
    simp [hb]
  · simp only [Part002.getLocationFromEvent, jsOr]
    rw [show ((Track.locObj ev).bind Bridge.RawLocation.address).bind Bridge.Address.cityName
        = Part002.resolvedCity ev from rfl, hcf]
    rw [show (Track.locObj ev).bind Bridge.RawLocation.locationName
        = Part002.resolvedName ev from rfl]
    cases hn : Part002.resolvedName ev with
    | none => simp
    | some nm =>
      rw [hn] at hnf
      simp only [optTruthy] at hnf
      simp [hnf]
  · simp only [Part002.getLocationFromEvent]
    rw [hloc code]
    cases hl : Track.locObj ev with
    | none => rfl
    | some l => cases hla : l.address <;> rfl

/-- Witness for the amended C7 statement: a structured city wins. -/
theorem claim_C7_amended_witness :
    Part002.getLocationFromEvent (some cityEvent) = "Rotterdam" :=
  (claim_C7_amended cityEvent).1 "Rotterdam" (by decide) (by decide)

/-- Claim C10: every response the handler returns, on every path, carries the
CORS headers, including the wildcard allowed origin. -/
theorem claim_C10_cors (inp : Track.HandlerInput) (now : Nat) (r : Track.HttpResponse)
    (h : Track.handler inp now = some r) :
    r.headers = Track.corsHeaders
    ∧ r.headers.lookup "Access-Control-Allow-Origin" = some "*" := by
  suffices hh : r.headers = Track.corsHeaders by
    refine ⟨hh, ?_⟩
    rw [hh]
    decide
  unfold Track.handler at h
  repeat' split at h
  all_goals try exact Option.noConfusion h
  all_goals (injection h with h2; subst h2; rfl)

/-- Helper: in a list sorted by descending created time, the first element
`find?` accepts has maximal created time among all accepted elements. -/
theorem find?_max_of_sorted_desc {p : RawEvent → Bool} :
    ∀ {l : List RawEvent}, List.Sorted byCreatedDesc l → ∀ {x : RawEvent},
      l.find? p = some x →
      ∀ y ∈ l, p y = true → y.eventCreatedDateTime ≤ x.eventCreatedDateTime := by
  intro l
  induction l with
  | nil => intro _ x hf; exact absurd hf (by simp)
  | cons a t ih =>
    intro hs x hf y hy hpy
    by_cases hp : p a
    · rw [List.find?_cons_of_pos _ hp] at hf
      cases hf
      rcases List.mem_cons.mp hy with rfl | hyt
      · exact Nat.le_refl _
      · exact List.rel_of_sorted_cons hs y hyt
    · rw [List.find?_cons_of_neg _ (by simpa using hp)] at hf
      rcases List.mem_cons.mp hy with rfl | hyt
      · exact absurd hpy hp
      · exact ih hs.of_cons hf y hyt hpy

/-- Claim C1 fails as stated: a batch whose only event is PLANNED yields the
status `Arrived` — derived from that planned event — instead of the
`Status Unavailable` sentinel. -/
theorem claim_C1_counterexample :
    (∀ e ∈ [plannedArrival], e.eventClassifierCode ≠ some "ACT")
    ∧ TrackV2.currentStatus [plannedArrival] = some "Arrived"
    ∧ (some "Arrived" : Option String) ≠ some "Status Unavailable" := by
  refine ⟨?_, ?_, ?_⟩ <;> decide

/-- Claim C1 amended: when an ACTUAL event exists the status is the translated
description of a most-recent ACTUAL event; when none exists but the batch is
non-empty the status is derived from a most-recent event of any classifier;
the sentinel is reported for the empty batch. -/
theorem claim_C1_amended (evs : List RawEvent) :
    ((∃ e ∈ evs, e.eventClassifierCode = some "ACT") →
      ∃ ev ∈ evs, ev.eventClassifierCode = some "ACT"
        ∧ (∀ e ∈ evs, e.eventClassifierCode = some "ACT" →
            e.eventCreatedDateTime ≤ ev.eventCreatedDateTime)
        ∧ TrackV2.currentStatus evs = TrackV2.describeEvent (some ev))
    ∧ ((∀ e ∈ evs, e.eventClassifierCode ≠ some "ACT") → evs ≠ [] →
      ∃ ev ∈ evs, (∀ e ∈ evs, e.eventCreatedDateTime ≤ ev.eventCreatedDateTime)
        ∧ TrackV2.currentStatus evs = TrackV2.describeEvent (some ev))
    ∧ (evs = [] → TrackV2.currentStatus evs = some "Status Unavailable") := by
  refine ⟨?_, ?_, ?_⟩
  · rintro ⟨e, he, hact⟩
    have hmem : e ∈ sortDesc evs := (List.mem_insertionSort byCreatedDesc).mpr he
    have hpe : (e.eventClassifierCode == some "ACT") = true := by
      simp [hact]
    cases hfind : (sortDesc evs).find? (fun ev => ev.eventClassifierCode == some "ACT") with
    | none =>
      exact absurd hpe (List.find?_eq_none.mp hfind e hmem)
    | some x =>
      have hx : x ∈ evs :=
        (List.mem_insertionSort byCreatedDesc).mp (List.mem_of_find?_eq_some hfind)
      have hxact : x.eventClassifierCode = some "ACT" := by
        simpa using List.find?_some hfind
      refine ⟨x, hx, hxact, ?_, ?_⟩
      · intro e2 he2 hact2
        exact find?_max_of_sorted_desc (List.sorted_insertionSort byCreatedDesc evs) hfind
          e2 ((List.mem_insertionSort byCreatedDesc).mpr he2) (by simp [hact2])
      · unfold TrackV2.currentStatus TrackV2.latestActualEvent
        rw [hfind]
  · intro hnone hne
    have hfn : (sortDesc evs).find? (fun ev => ev.eventClassifierCode == some "ACT") = none := by
      apply List.find?_eq_none.mpr
      intro x hx
      simpa using hnone x ((List.mem_insertionSort byCreatedDesc).mp hx)
    cases hsd : sortDesc evs with
    | nil =>
      exfalso
      apply hne
      have := List.length_insertionSort byCreatedDesc evs
      rw [show List.insertionSort byCreatedDesc evs = sortDesc evs from rfl, hsd] at this
      exact List.length_eq_zero.mp this.symm
    | cons a t =>
      have hsrt := List.sorted_insertionSort byCreatedDesc evs
      rw [show List.insertionSort byCreatedDesc evs = sortDesc evs from rfl, hsd] at hsrt
      refine ⟨a, ?_, ?_, ?_⟩
      · exact (List.mem_insertionSort byCreatedDesc).mp (by rw [show List.insertionSort byCreatedDesc evs = sortDesc evs from rfl, hsd]; exact List.mem_cons_self a t)
      · intro e2 he2
        have : e2 ∈ sortDesc evs := (List.mem_insertionSort byCreatedDesc).mpr he2
        rw [hsd] at this
        rcases List.mem_cons.mp this with rfl | het
        · exact Nat.le_refl _
        · exact List.rel_of_sorted_cons hsrt e2 het
      · unfold TrackV2.currentStatus TrackV2.latestActualEvent
        rw [hfn, hsd]
        rfl
  · intro h
    subst h
    rfl

/-- Witness for the amended C1 statement: a planned and an actual event. -/
theorem claim_C1_amended_witness :
    ∃ ev ∈ [plannedArrival, bareEvent], ev.eventClassifierCode = some "ACT"
      ∧ (∀ e ∈ [plannedArrival, bareEvent], e.eventClassifierCode = some "ACT" →
          e.eventCreatedDateTime ≤ ev.eventCreatedDateTime)
      ∧ TrackV2.currentStatus [plannedArrival, bareEvent]
          = TrackV2.describeEvent (some ev) :=
  (claim_C1_amended [plannedArrival, bareEvent]).1 (by decide)

/-- Helper: membership is invariant under first-occurrence deduplication. -/
theorem mem_jsSetDedup (a : String) : ∀ (l : List String), a ∈ jsSetDedup l ↔ a ∈ l := by
  intro l
  induction l using jsSetDedup.induct with
  | case1 => simp [jsSetDedup]
  | case2 x xs ih =>
    rw [jsSetDedup]
    simp only [List.mem_cons, ih, List.mem_filter]
    constructor
    · rintro (rfl | ⟨h1, _⟩)
      · exact Or.inl rfl
      · exact Or.inr h1
    · rintro (rfl | h)
      · exact Or.inl rfl
      · by_cases hax : a = x
        · exact Or.inl hax
        · exact Or.inr ⟨h, by simpa [bne_iff_ne] using hax⟩

/-- Helper: first-occurrence deduplication has no duplicates. -/
theorem nodup_jsSetDedup : ∀ (l : List String), (jsSetDedup l).Nodup := by
  intro l
  induction l using jsSetDedup.induct with
  | case1 => simp [jsSetDedup]
  | case2 x xs ih =>
    rw [jsSetDedup]
    refine List.nodup_cons.mpr ⟨?_, ih⟩
    intro hmem
    have := (mem_jsSetDedup x _).mp hmem
    have := (List.mem_filter.mp this).2
    simp at this

/-- Helper: `find?` returns the head of the filtered list. -/
theorem find?_eq_head?_filter {α : Type} (p : α → Bool) :
    ∀ (l : List α), l.find? p = (l.filter p).head? := by
  intro l
  induction l with
  | nil => rfl
  | cons a t ih =>
    by_cases hp : p a
    · rw [List.find?_cons_of_pos _ hp, List.filter_cons_of_pos (by simpa using hp)]
      rfl
    · rw [List.find?_cons_of_neg _ (by simpa using hp),
        List.filter_cons_of_neg (by simpa using hp)]
      exact ih

/-- Helper: `find?` over the reversed list returns the last filtered element. -/
theorem reverse_find?_eq_getLast?_filter {α : Type} (p : α → Bool) (l : List α) :
    l.reverse.find? p = (l.filter p).getLast? := by
  rw [find?_eq_head?_filter, List.filter_reverse, List.head?_reverse]

/-- Helper: a `filterMap` whose function always succeeds and is inverted by
`g` maps back to the original list. -/
theorem filterMap_map_id {α β : Type} (f : α → Option β) (g : β → α) :
    ∀ (l : List α), (∀ a ∈ l, ∃ b, f a = some b ∧ g b = a) →
      (l.filterMap f).map g = l := by
  intro l
  induction l with
  | nil => intro _; rfl
  | cons x xs ih =>
    intro h
    obtain ⟨b, hb, hg⟩ := h x (List.mem_cons_self x xs)
    rw [List.filterMap_cons, hb]
    simp only [List.map_cons, hg]
    rw [ih (fun a ha => h a (List.mem_cons_of_mem x ha))]

/-- Helper: every id in the deduplicated reference list is non-empty and is
carried by some container event. -/
theorem id_props {evs : List RawEvent} {r : String}
    (h : r ∈ Track.uniqueContainerIds evs) :
    r ≠ "" ∧ ∃ e ∈ Track.containerEvents evs, e.equipmentReference = some r := by
  have hm : r ∈ (Track.containerEvents evs).map Track.refStr :=
    (mem_jsSetDedup r _).mp h
  obtain ⟨e, he, href⟩ := List.mem_map.mp hm
  have ht : optTruthy e.equipmentReference = true :=
    (List.mem_filter.mp he).2
  cases hr : e.equipmentReference with
  | none => rw [hr] at ht; exact absurd ht (by simp [optTruthy])
  | some s =>
    rw [hr] at ht
    have hs : s ≠ "" := by simpa [optTruthy, bne_iff_ne] using ht
    have hrs : s = r := by simpa [Track.refStr, hr] using href
    subst hrs
    exact ⟨hs, e, he, hr⟩

/-- Helper: the reversed-`find` lookup of a deduplicated id always succeeds. -/
theorem find_for_id {evs : List RawEvent} {r : String}
    (h : r ∈ Track.uniqueContainerIds evs) :
    ∃ ev, (Track.containerEvents evs).reverse.find?
        (fun e => e.equipmentReference == some r) = some ev := by
  obtain ⟨-, e, he, href⟩ := id_props h
  have hmem : e ∈ (Track.containerEvents evs).reverse := List.mem_reverse.mpr he
  cases hf : (Track.containerEvents evs).reverse.find?
      (fun e => e.equipmentReference == some r) with
  | none =>
    exact absurd (by simp [href]) (List.find?_eq_none.mp hf e hmem)
  | some ev => exact ⟨ev, rfl⟩

/-- Helper: the container-event filter for a fixed non-empty reference equals
the carriesRef filter over the sorted batch. -/
theorem filter_ref_eq {evs : List RawEvent} {r : String} (hr : r ≠ "") :
    (Track.containerEvents evs).filter (fun e => e.equipmentReference == some r)
      = (sortAsc evs).filter (fun e => decide (carriesRef e r)) := by
  unfold Track.containerEvents
  rw [List.filter_filter]
  apply List.filter_congr
  intro e _
  cases href : e.equipmentReference with
  | none => simp [carriesRef, href, optTruthy]
  | some s =>
    by_cases hsr : s = r
    · subst hsr
      simp [carriesRef, href, optTruthy, bne_iff_ne, hr]
    · simp [carriesRef, href, optTruthy, hsr]

/-- Helper: the id list of the produced containers is exactly the
deduplicated reference list. -/
theorem containers_map_id (evs : List RawEvent) :
    (Track.containersOf evs).map Track.ContainerOut.id = Track.uniqueContainerIds evs := by
  apply filterMap_map_id
  intro r hr
  obtain ⟨ev, hev⟩ := find_for_id hr
  refine ⟨Track.mkContainer r ev, ?_, rfl⟩
  rw [hev]
  rfl

/-- Claim C5: the containers output has exactly one entry per distinct
equipment reference carried by some input event and no others, and each
entry is derived (by the code's own constructor) from the last event in
sequence order carrying that reference. -/
theorem claim_C5_containers (evs : List RawEvent) :
    ((Track.containersOf evs).map Track.ContainerOut.id).Nodup
    ∧ (∀ r, r ∈ (Track.containersOf evs).map Track.ContainerOut.id
        ↔ ∃ e ∈ evs, carriesRef e r)
    ∧ (∀ c ∈ Track.containersOf evs, ∃ ev,
        ((sortAsc evs).filter (fun e => decide (carriesRef e c.id))).getLast? = some ev
        ∧ c = Track.mkContainer c.id ev) := by
  refine ⟨?_, ?_, ?_⟩
  · rw [containers_map_id]
    exact nodup_jsSetDedup _
  · intro r
    rw [containers_map_id]
    constructor
    · intro h
      obtain ⟨hne, e, he, href⟩ := id_props h
      exact ⟨e, (List.mem_insertionSort byCreated).mp (List.mem_filter.mp he).1, href, hne⟩
    · rintro ⟨e, he, href, hne⟩
      apply (mem_jsSetDedup r _).mpr
      apply List.mem_map.mpr
      refine ⟨e, ?_, by simp [Track.refStr, href]⟩
      apply List.mem_filter.mpr
      refine ⟨(List.mem_insertionSort byCreated).mpr he, ?_⟩
      simp [optTruthy, href, bne_iff_ne, hne]
  · intro c hc
    simp only [Track.containersOf] at hc
    obtain ⟨r, hr, hfr⟩ := List.mem_filterMap.mp hc
    cases hfind : (Track.containerEvents evs).reverse.find?
        (fun e => e.equipmentReference == some r) with
    | none => rw [hfind] at hfr; exact absurd hfr (by simp)
    | some ev =>
      rw [hfind] at hfr
      have hc2 : c = Track.mkContainer r ev := by
        have := hfr
        simpa using this.symm
      subst hc2
      have hid : (Track.mkContainer r ev).id = r := rfl
      obtain ⟨hrne, -⟩ := id_props hr
      refine ⟨ev, ?_, rfl⟩
      rw [hid, ← filter_ref_eq hrne, ← reverse_find?_eq_getLast?_filter]
      exact hfind

/-- Witness for C5 at a concrete two-container batch. -/
theorem claim_C5_containers_witness :
    "MSKU1000000" ∈ (Track.containersOf [evEarly, cityEvent]).map Track.ContainerOut.id :=
  ((claim_C5_containers [evEarly, cityEvent]).2.1 "MSKU1000000").mpr (by decide)

/-- Witness for C10 at the CORS-preflight path. -/
theorem claim_C10_cors_witness :
    (Track.HttpResponse.mk 200 Track.corsHeaders (Track.RespBody.plain "Success")).headers
        = Track.corsHeaders
    ∧ (Track.HttpResponse.mk 200 Track.corsHeaders
        (Track.RespBody.plain "Success")).headers.lookup "Access-Control-Allow-Origin"
        = some "*" :=
  claim_C10_cors ⟨"OPTIONS", none, Except.error "", Except.error ""⟩ 0
    ⟨200, Track.corsHeaders, Track.RespBody.plain "Success"⟩ rfl
